import Mathlib

/-!
Verification development for the UCP transport layer (src/ucp.rs).

The code is embedded shallowly: machine integers are `Nat` with explicit
reduction modulo 2^32 where the Rust `u32` arithmetic wraps, the 1400-byte
packet buffer is a `List Nat` of byte values, and operations that can panic
in Rust (out-of-range slice indexing, `unwrap` on a failed result) return
`Option`, with `none` standing for the panic.  External effects are made
explicit: the milliseconds clock `timestamp()` is a `now` parameter, the
random session id is a parameter, and datagrams handed to the UDP socket
are recorded in a ghost `sent` list.
-/

def U32M : Nat := 4294967296

/-- Wrapping u32 subtraction, as released Rust code computes `a - b` on u32. -/
def sub32 (a b : Nat) : Nat := (a % U32M + (U32M - b % U32M)) % U32M

/-- One shift-and-conditionally-xor step of the reflected CRC-32 (IEEE polynomial). -/
def crcStep (c : Nat) : Nat :=
  if c % 2 = 1 then (c / 2) ^^^ 3988292384 else c / 2

/-- Fold one input byte into the CRC state: xor it in, then do eight bit steps. -/
def crcByte (c b : Nat) : Nat :=
  (List.range 8).foldl (fun acc _ => crcStep acc) (c ^^^ b)

/-- Model of `crc32::checksum_ieee` from the `crc` crate: standard reflected
CRC-32, initial value 0xFFFFFFFF, final xor 0xFFFFFFFF. -/
def checksum_ieee (bytes : List Nat) : Nat :=
  (bytes.foldl crcByte 4294967295) ^^^ 4294967295

/-- The 1400-byte zero-initialized array `buf: [u8; 1400]` is represented by
the list of its explicitly written prefix; every byte beyond the prefix is 0.
Read a byte from the packet buffer. -/
def getByte (buf : List Nat) (i : Nat) : Nat := buf.getD i 0

/-- Write a byte into the packet buffer, materializing intermediate zero
bytes when the write lands beyond the explicit prefix. -/
def setByte (buf : List Nat) (i v : Nat) : List Nat :=
  if i < buf.length then buf.set i v
  else buf ++ List.replicate (i - buf.length) 0 ++ [v]

/-- Model of `UcpPacket::write_u32`: store `u.to_be()` at the offset, i.e. the
four bytes of the value in big-endian order. -/
def writeU32 (buf : List Nat) (off v : Nat) : List Nat :=
  setByte (setByte (setByte (setByte buf
    off (v % U32M / 16777216)) (off + 1) (v % U32M / 65536 % 256))
    (off + 2) (v % U32M / 256 % 256)) (off + 3) (v % U32M % 256)

/-- Model of `UcpPacket::parse_u32`: read four bytes at the offset and apply
`u32::from_be`, i.e. interpret them in big-endian order. -/
def readU32 (buf : List Nat) (off : Nat) : Nat :=
  getByte buf off * 16777216 + getByte buf (off + 1) * 65536 +
    getByte buf (off + 2) * 256 + getByte buf (off + 3)

/-- Rust slice `&buf[a..b]` of the 1400-byte array as a list of its `b - a`
byte values (callers guard the panicking cases `a > b` and `b > 1400`). -/
def sliceBytes (buf : List Nat) (a b : Nat) : List Nat :=
  (List.range (b - a)).map (fun i => getByte buf (a + i))

def CMD_SYN : Nat := 128
def CMD_SYN_ACK : Nat := 129
def CMD_ACK : Nat := 130
def CMD_DATA : Nat := 131
def CMD_HEARTBEAT : Nat := 132
def CMD_HEARTBEAT_ACK : Nat := 133
def UCP_PACKET_META_SIZE : Nat := 29
def DEFAULT_WINDOW : Nat := 256
def DEFAULT_RTO : Nat := 100

/-- The `UcpPacket` struct: a 1400-byte datagram buffer, the number of valid
bytes in it, the payload length, and the decoded header fields. -/
structure UcpPacket where
  buf : List Nat
  size : Nat
  payload : Nat
  session_id : Nat
  timestamp : Nat
  window : Nat
  xmit : Nat
  una : Nat
  seq : Nat
  cmd : Nat
  deriving DecidableEq

/-- Model of `UcpPacket::new`: zeroed buffer (the empty prefix stands for the
all-zero 1400-byte array) and zeroed fields. -/
def UcpPacket.new : UcpPacket :=
  { buf := [], size := 0, payload := 0, session_id := 0,
    timestamp := 0, window := 0, xmit := 0, una := 0, seq := 0, cmd := 0 }

/-- Model of `UcpPacket::is_crc32_correct`: the CRC of bytes `4..size` equals
the stored big-endian u32 at offset 0. -/
def UcpPacket.is_crc32_correct (p : UcpPacket) : Bool :=
  checksum_ieee (sliceBytes p.buf 4 p.size) == readU32 p.buf 0

/-- Model of `UcpPacket::is_legal`: the size leaves room for the 29-byte header
and the checksum verifies. -/
def UcpPacket.is_legal (p : UcpPacket) : Bool :=
  decide (UCP_PACKET_META_SIZE < p.size) && p.is_crc32_correct

/-- Model of `UcpPacket::parse`: on a legal buffer, set `payload = size - 29`,
read the header fields at offsets 4, 8, 12, 16, 20, 24, 28 in big-endian
order, and accept exactly when the command byte lies in `[128, 133]`.  The
source mutates in place and returns a bool; every caller drops the packet on
`false`, so the model returns `Option`. -/
def UcpPacket.parse (p : UcpPacket) : Option UcpPacket :=
  if p.is_legal then
    let q : UcpPacket :=
      { p with
        payload := p.size - UCP_PACKET_META_SIZE,
        session_id := readU32 p.buf 4,
        timestamp := readU32 p.buf 8,
        window := readU32 p.buf 12,
        xmit := readU32 p.buf 16,
        una := readU32 p.buf 20,
        seq := readU32 p.buf 24,
        cmd := getByte p.buf 28 }
    if CMD_SYN ≤ q.cmd ∧ q.cmd ≤ CMD_HEARTBEAT_ACK then some q else none
  else none

/-- Model of `UcpPacket::pack`.  The source writes the header fields at
offsets 4..29, then computes the digest over `buf[4..self.size]` BEFORE
updating `self.size`, stores it at offset 0, and only then sets
`size = payload + 29`.  The Rust slice `&buf[4..self.size]` panics when
`self.size < 4` or `self.size > 1400`; `none` models that panic. -/
def UcpPacket.pack (p : UcpPacket) : Option UcpPacket :=
  let b1 := writeU32 p.buf 4 p.session_id
  let b2 := writeU32 b1 8 p.timestamp
  let b3 := writeU32 b2 12 p.window
  let b4 := writeU32 b3 16 p.xmit
  let b5 := writeU32 b4 20 p.una
  let b6 := writeU32 b5 24 p.seq
  let b7 := setByte b6 28 (p.cmd % 256)
  if 4 ≤ p.size ∧ p.size ≤ 1400 then
    let digest := checksum_ieee (sliceBytes b7 4 p.size)
    some { p with buf := writeU32 b7 0 digest,
                  size := p.payload + UCP_PACKET_META_SIZE }
  else none

/-- Model of `UcpPacket::is_syn`. -/
def UcpPacket.is_syn (p : UcpPacket) : Bool := p.cmd == CMD_SYN

/-- Model of `UcpPacket::remaining_load` (the buffer is 1400 bytes long). -/
def UcpPacket.remaining_load (p : UcpPacket) : Nat :=
  1400 - p.payload - UCP_PACKET_META_SIZE

/-- Model of `UcpPacket::payload_offset`. -/
def UcpPacket.payload_offset (p : UcpPacket) : Nat :=
  p.payload + UCP_PACKET_META_SIZE

/-- Model of `UcpPacket::payload_write_u32`.  The source returns a bool that
every caller ignores, so the model just returns the (possibly unchanged)
packet. -/
def UcpPacket.payload_write_u32 (p : UcpPacket) (u : Nat) : UcpPacket :=
  if 4 ≤ p.remaining_load then
    { p with buf := writeU32 p.buf p.payload_offset u, payload := p.payload + 4 }
  else p

/-- The connection handshake states. -/
inductive UcpState where
  | NONE
  | ACCEPTING
  | CONNECTING
  | ESTABLISHED
  deriving DecidableEq

/-- The `UcpStreamImpl` struct.  The UDP socket is replaced by the ghost list
`sent` of datagrams handed to it, in order; the monotonic clock and the
callbacks are external. -/
structure UcpStreamImpl where
  remote_addr : Nat
  state : UcpState
  send_queue : List UcpPacket
  recv_queue : List UcpPacket
  send_buffer : List UcpPacket
  ack_list : List Nat
  session_id : Nat
  local_window : Nat
  remote_window : Nat
  seq : Nat
  una : Nat
  rto : Nat
  sent : List UcpPacket
  deriving DecidableEq

/-- Model of `UcpStreamImpl::new`. -/
def UcpStreamImpl.new (remote_addr : Nat) : UcpStreamImpl :=
  { remote_addr := remote_addr, state := UcpState.NONE,
    send_queue := [], recv_queue := [], send_buffer := [], ack_list := [],
    session_id := 0, local_window := DEFAULT_WINDOW,
    remote_window := DEFAULT_WINDOW, seq := 0, una := 0, rto := DEFAULT_RTO,
    sent := [] }

/-- Model of `UcpStreamImpl::next_seq`: pre-increment (wrapping u32). -/
def UcpStreamImpl.next_seq (s : UcpStreamImpl) : Nat × UcpStreamImpl :=
  let q := (s.seq + 1) % U32M
  (q, { s with seq := q })

/-- Model of `UcpStreamImpl::new_packet`: fresh packet with the current
session, clock value, local window, next sequence number, una and command. -/
def UcpStreamImpl.new_packet (s : UcpStreamImpl) (cmd now : Nat) :
    UcpPacket × UcpStreamImpl :=
  let r := s.next_seq
  ({ UcpPacket.new with
      session_id := s.session_id, timestamp := now, window := s.local_window,
      seq := r.1, una := s.una, cmd := cmd }, r.2)

/-- Model of `UcpStreamImpl::new_ack_packet`: like `new_packet` with command
ACK but no sequence number consumed. -/
def UcpStreamImpl.new_ack_packet (s : UcpStreamImpl) (now : Nat) : UcpPacket :=
  { UcpPacket.new with
      session_id := s.session_id, timestamp := now, window := s.local_window,
      una := s.una, cmd := CMD_ACK }

/-- Model of `UcpStreamImpl::send_packet_directly`: pack the packet (which can
panic, see `UcpPacket.pack`) and hand the packed bytes to the socket. -/
def UcpStreamImpl.send_packet_directly (s : UcpStreamImpl) (p : UcpPacket) :
    Option UcpStreamImpl :=
  match p.pack with
  | some pk => some { s with sent := s.sent ++ [pk] }
  | none => none

/-- Model of `UcpStreamImpl::send_packet`: under the remote window the packet
is sent directly (packed in place) and the packed packet is appended to
`send_queue`; otherwise it is appended to `send_buffer` untransmitted. -/
def UcpStreamImpl.send_packet (s : UcpStreamImpl) (p : UcpPacket) :
    Option UcpStreamImpl :=
  if s.send_queue.length < s.remote_window then
    match p.pack with
    | some pk =>
        some { s with sent := s.sent ++ [pk], send_queue := s.send_queue ++ [pk] }
    | none => none
  else
    some { s with send_buffer := s.send_buffer ++ [p] }

/-- Model of `UcpStreamImpl::connecting`: enter CONNECTING, adopt the random
session id (a parameter here), build a SYN and send it. -/
def UcpStreamImpl.connecting (s : UcpStreamImpl) (sid now : Nat) :
    Option UcpStreamImpl :=
  let s1 := { s with state := UcpState.CONNECTING, session_id := sid % U32M }
  let r := s1.new_packet CMD_SYN now
  r.2.send_packet r.1

/-- Model of `UcpStreamImpl::accepting`: enter ACCEPTING, adopt the SYN
session id and window, and send a SYN_ACK echoing the SYN seq and timestamp. -/
def UcpStreamImpl.accepting (s : UcpStreamImpl) (p : UcpPacket) (now : Nat) :
    Option UcpStreamImpl :=
  let s1 := { s with state := UcpState.ACCEPTING, session_id := p.session_id,
                     remote_window := p.window }
  let r := s1.new_packet CMD_SYN_ACK now
  let sa1 := r.1.payload_write_u32 p.seq
  let sa2 := sa1.payload_write_u32 p.timestamp
  r.2.send_packet sa2

/-- The linear first-match scan-and-remove of `UcpStreamImpl::process_ack`:
`none` when no entry of the queue carries the sequence number, otherwise the
queue with exactly the first matching entry removed. -/
def removeAck : List UcpPacket → Nat → Option (List UcpPacket)
  | [], _ => none
  | q :: rest, aseq =>
      if q.seq = aseq then some rest
      else (removeAck rest aseq).map (fun t => q :: t)

/-- Model of `UcpStreamImpl::process_ack`: scan `send_queue` for the sequence
number; on a match set `rto = (rto + rtt) / 2` with `rtt = now - timestamp`
(wrapping u32 arithmetic) and remove the entry; otherwise change nothing. -/
def UcpStreamImpl.process_ack (s : UcpStreamImpl) (aseq ts now : Nat) :
    Bool × UcpStreamImpl :=
  match removeAck s.send_queue aseq with
  | some rest =>
      (true, { s with rto := ((s.rto + sub32 now ts) % U32M) / 2,
                      send_queue := rest })
  | none => (false, s)

/-- Model of `UcpStreamImpl::process_state_accepting`: an empty stub in the
source. -/
def UcpStreamImpl.process_state_accepting (s : UcpStreamImpl)
    (_p : UcpPacket) : Option UcpStreamImpl :=
  some s

/-- Model of `UcpStreamImpl::process_state_connecting`: on a SYN_ACK with an
8-byte payload, read the echoed seq and timestamp from the payload; if the
ack matches a `send_queue` entry, build the echo ACK, send it directly and
enter ESTABLISHED.  The echo ACK is a fresh packet, so packing it hits the
`pack` panic. -/
def UcpStreamImpl.process_state_connecting (s : UcpStreamImpl) (p : UcpPacket)
    (now : Nat) : Option UcpStreamImpl :=
  if p.cmd = CMD_SYN_ACK ∧ p.payload = 8 then
    let aseq := readU32 p.buf 29
    let ts := readU32 p.buf 33
    match s.process_ack aseq ts now with
    | (true, s1) =>
        let ack := s1.new_ack_packet now
        let a1 := ack.payload_write_u32 p.seq
        let a2 := a1.payload_write_u32 p.timestamp
        match s1.send_packet_directly a2 with
        | some s2 => some { s2 with state := UcpState.ESTABLISHED }
        | none => none
    | (false, s1) => some s1
  else some s

/-- Model of `UcpStreamImpl::process_state_established`: an empty stub in the
source. -/
def UcpStreamImpl.process_state_established (s : UcpStreamImpl)
    (_p : UcpPacket) : Option UcpStreamImpl :=
  some s

/-- Model of `UcpStreamImpl::processing`: drop the packet when the session id
differs, otherwise adopt the advertised window and dispatch on the state. -/
def UcpStreamImpl.processing (s : UcpStreamImpl) (p : UcpPacket) (now : Nat) :
    Option UcpStreamImpl :=
  if s.session_id ≠ p.session_id then some s
  else
    let s1 := { s with remote_window := p.window }
    match s1.state with
    | UcpState.ACCEPTING => s1.process_state_accepting p
    | UcpState.CONNECTING => s1.process_state_connecting p now
    | UcpState.ESTABLISHED => s1.process_state_established p
    | UcpState.NONE => some s1

/-- Model of `UcpStreamImpl::process_packet`: drop the packet when the source
address differs from the remote address; in state NONE only a SYN is
considered (triggering `accepting`); in any other state defer to
`processing`. -/
def UcpStreamImpl.process_packet (s : UcpStreamImpl) (p : UcpPacket)
    (addr now : Nat) : Option UcpStreamImpl :=
  if s.remote_addr ≠ addr then some s
  else
    match s.state with
    | UcpState.NONE => if p.is_syn then s.accepting p now else some s
    | _ => s.processing p now

/-- The `UcpClient` struct reduced to its connection state. -/
structure UcpClient where
  ucp : UcpStreamImpl
  deriving DecidableEq

/-- Model of `UcpClient::connect`.  The source unwraps the socket bind, the
address parse and the socket clone, so each failure panics (`none`); on
success it runs `connecting` on a fresh connection (the read timeout setup
after it always succeeds for a 10 ms duration).  The bind, parse and clone
outcomes are parameters standing for the external socket calls. -/
def UcpClient.connect (bindOk : Bool) (parsedAddr : Option Nat)
    (cloneOk : Bool) (sid now : Nat) : Option UcpClient :=
  if bindOk then
    match parsedAddr with
    | some addr =>
        if cloneOk then
          ((UcpStreamImpl.new addr).connecting sid now).map (fun u => ⟨u⟩)
        else none
    | none => none
  else none

/-- What the new-connection callback of the server can observe at the moment
it is handed the fresh stream: the connection state, its session id, and
whether the registry already holds an entry for the remote address. -/
structure CallbackView where
  conn_state : UcpState
  conn_session : Nat
  registry_has_addr : Bool
  deriving DecidableEq

/-- The `UcpServer` struct: the registry mapping remote addresses to
connections (the `HashMap` is modelled as an association list). -/
structure UcpServer where
  ucp_map : List (Nat × UcpStreamImpl)
  deriving DecidableEq

/-- Registry lookup, keyed by remote address. -/
def lookupAddr (m : List (Nat × UcpStreamImpl)) (addr : Nat) :
    Option UcpStreamImpl :=
  (m.find? (fun e => e.1 == addr)).map (fun e => e.2)

/-- Registry insert with replacement, the `HashMap::insert` semantics. -/
def insertAddr (m : List (Nat × UcpStreamImpl)) (addr : Nat)
    (c : UcpStreamImpl) : List (Nat × UcpStreamImpl) :=
  (addr, c) :: m.filter (fun e => e.1 != addr)

/-- Model of `UcpServer::listen`: a bind failure is returned to the caller as
an error; on success the server starts with an empty registry. -/
def UcpServer.listen (bindResult : Except Nat Unit) : Except Nat UcpServer :=
  match bindResult with
  | Except.ok _ => Except.ok ⟨[]⟩
  | Except.error e => Except.error e

/-- Model of `UcpServer::new_ucp_stream`: create a fresh connection for the
remote address, invoke the new-connection callback on it (the callback runs
before the registry insert and before the SYN is processed; `CallbackView`
records what it can observe at that moment), then insert the connection into
the registry and process the SYN on the shared connection cell. -/
def UcpServer.new_ucp_stream (srv : UcpServer) (p : UcpPacket)
    (addr now : Nat) : Option CallbackView × Option UcpServer :=
  let conn := UcpStreamImpl.new addr
  let view : CallbackView :=
    ⟨conn.state, conn.session_id, (lookupAddr srv.ucp_map addr).isSome⟩
  match conn.process_packet p addr now with
  | some c2 =>
      (some view, some { srv with ucp_map := insertAddr srv.ucp_map addr c2 })
  | none => (some view, none)

/-- Model of `UcpServer::process_packet`: parse the datagram (dropping it on
failure), route a known remote address to its connection, and hand a SYN from
an unknown address to `new_ucp_stream`; anything else from an unknown address
is dropped. -/
def UcpServer.process_packet (srv : UcpServer) (p0 : UcpPacket)
    (addr now : Nat) : Option CallbackView × Option UcpServer :=
  match p0.parse with
  | none => (none, some srv)
  | some p =>
    match lookupAddr srv.ucp_map addr with
    | some conn =>
        (none, (conn.process_packet p addr now).map
          (fun c2 => { srv with ucp_map := insertAddr srv.ucp_map addr c2 }))
    | none =>
        if p.is_syn then srv.new_ucp_stream p addr now
        else (none, some srv)

/-- Sequential sends through `send_packet`, propagating the pack panic. -/
def sendAll : UcpStreamImpl → List UcpPacket → Option UcpStreamImpl
  | s, [] => some s
  | s, p :: ps =>
    match s.send_packet p with
    | some s1 => sendAll s1 ps
    | none => none

/-! Concrete inputs used by the counterexamples and witnesses below. -/

/-- The SYN packet that `connecting` builds on a fresh connection: fresh
buffer, `size = 0`. -/
def c1syn : UcpPacket :=
  { UcpPacket.new with session_id := 1, timestamp := 0, window := 256,
                       seq := 1, una := 0, cmd := 128 }

/-- A packet with empty payload whose internal `size` is 50, as after reusing
a buffer that previously held a 50-byte datagram. -/
def c2pkt : UcpPacket :=
  { UcpPacket.new with session_id := 9, cmd := 131, size := 50 }

/-- A 30-byte wire buffer: command byte ACK at offset 28, one payload byte,
correct CRC at offset 0. -/
def wbase : List Nat := setByte [] 28 130

def wdigest : Nat := checksum_ieee (sliceBytes wbase 4 30)

def wpkt : UcpPacket :=
  { UcpPacket.new with buf := writeU32 wbase 0 wdigest, size := 30 }

/-- The packet `wpkt.parse` produces. -/
def wimg : UcpPacket := { wpkt with payload := 1, cmd := 130 }

/-- A server-side connection that has sent its SYN_ACK: state ACCEPTING. -/
def c5srv : UcpStreamImpl :=
  { UcpStreamImpl.new 7 with state := UcpState.ACCEPTING, session_id := 42 }

/-- The final handshake ACK arriving at the server connection. -/
def c5ack : UcpPacket :=
  { UcpPacket.new with session_id := 42, cmd := 130, payload := 8,
                       window := 256, size := 37 }

/-- The in-flight SYN sitting in the client send queue. -/
def c6pkt : UcpPacket := { UcpPacket.new with seq := 1 }

/-- A client connection in CONNECTING with that SYN unacknowledged. -/
def c6conn : UcpStreamImpl :=
  { UcpStreamImpl.new 7 with state := UcpState.CONNECTING, session_id := 42,
                             send_queue := [c6pkt] }

/-- A SYN_ACK whose 8-byte payload echoes seq 1 and timestamp 77. -/
def c6synack : UcpPacket :=
  { UcpPacket.new with session_id := 42, cmd := 129, payload := 8,
                       window := 256, buf := writeU32 (writeU32 [] 29 1) 33 77 }

/-- A DATA packet for the same session, not a SYN_ACK. -/
def c6data : UcpPacket :=
  { UcpPacket.new with session_id := 42, cmd := 131, window := 300 }

/-- A freshly built DATA packet (`size = 0`). -/
def c7fresh : UcpPacket := { UcpPacket.new with session_id := 42, cmd := 131 }

/-- An established connection with an empty send queue (window 256). -/
def c7conn : UcpStreamImpl :=
  { UcpStreamImpl.new 7 with state := UcpState.ESTABLISHED, session_id := 42 }

/-- A packet whose internal size is already 30, so packing does not panic. -/
def p30 : UcpPacket := { UcpPacket.new with size := 30 }

/-- The packed form of `p30`. -/
def pk30 : UcpPacket := (p30.pack).getD p30

/-- An unacknowledged packet with sequence number 1. -/
def a8pkt : UcpPacket := { UcpPacket.new with seq := 1 }

/-- A connection whose send queue holds exactly that packet. -/
def s8 : UcpStreamImpl := { UcpStreamImpl.new 7 with send_queue := [a8pkt] }

/-- A CONNECTING connection with session id 42. -/
def s9 : UcpStreamImpl :=
  { UcpStreamImpl.new 7 with state := UcpState.CONNECTING, session_id := 42 }

/-- A packet carrying the wrong session id 9. -/
def p9 : UcpPacket := { UcpPacket.new with session_id := 9, cmd := 131 }

/-- A 30-byte wire buffer holding a valid SYN: command byte 128 at offset 28,
one payload byte, correct CRC at offset 0. -/
def sbase : List Nat := setByte [] 28 128

def sdigest : Nat := checksum_ieee (sliceBytes sbase 4 30)

def spkt : UcpPacket :=
  { UcpPacket.new with buf := writeU32 sbase 0 sdigest, size := 30 }

/-- The packet `spkt.parse` produces. -/
def simg : UcpPacket := { spkt with payload := 1, cmd := 128 }

/-- A freshly listening server with an empty registry. -/
def srv10 : UcpServer := ⟨[]⟩

/-! Helper lemmas. -/

set_option maxRecDepth 20000

/-- Packing a packet whose internal `size` is below 4 hits the panicking
slice `&buf[4..size]`. -/
lemma pack_none_of_small (p : UcpPacket) (h : p.size < 4) : p.pack = none := by
  have hc : ¬(4 ≤ p.size ∧ p.size ≤ 1400) := by omega
  simp only [UcpPacket.pack, hc, if_false]

/-- Writing into the payload area does not change the internal `size`. -/
lemma payload_write_u32_size (p : UcpPacket) (u : Nat) :
    (p.payload_write_u32 u).size = p.size := by
  unfold UcpPacket.payload_write_u32
  split <;> rfl

/-- The echo ACK built inside `process_state_connecting` is a fresh packet,
so sending it directly always panics inside `pack`. -/
lemma send_ack_panics (s1 : UcpStreamImpl) (now u v : Nat) :
    s1.send_packet_directly
      (((s1.new_ack_packet now).payload_write_u32 u).payload_write_u32 v)
      = none := by
  unfold UcpStreamImpl.send_packet_directly
  rw [pack_none_of_small]
  rw [payload_write_u32_size, payload_write_u32_size]
  exact (by norm_num : (0 : Nat) < 4)

/-- The linear scan finds nothing exactly when no queue entry carries the
sequence number. -/
lemma removeAck_none_iff (q : List UcpPacket) (a : Nat) :
    removeAck q a = none ↔ ∀ x ∈ q, x.seq ≠ a := by
  induction q with
  | nil => simp [removeAck]
  | cons y t ih =>
    by_cases hy : y.seq = a
    · simp [removeAck, hy]
    · simp [removeAck, hy, Option.map_eq_none', ih]

/-- A successful scan removes exactly the first matching entry. -/
lemma removeAck_some_decomp (q : List UcpPacket) (a : Nat) :
    ∀ q1, removeAck q a = some q1 →
    ∃ l y r, q = l ++ y :: r ∧ y.seq = a ∧ (∀ z ∈ l, z.seq ≠ a) ∧
      q1 = l ++ r := by
  induction q with
  | nil => intro q1 h; simp [removeAck] at h
  | cons x t ih =>
    intro q1 h
    by_cases hx : x.seq = a
    · refine ⟨[], x, t, by simp, hx, by simp, ?_⟩
      simp [removeAck, hx] at h
      simp [h]
    · simp only [removeAck, hx, if_false, Option.map_eq_some'] at h
      obtain ⟨t1, h1, h2⟩ := h
      obtain ⟨l, y, r, e1, e2, e3, e4⟩ := ih t1 h1
      refine ⟨x :: l, y, r, by simp [e1], e2, ?_, by simp [h2.symm, e4]⟩
      intro z hz
      rcases List.mem_cons.mp hz with hz1 | hz2
      · rw [hz1]; exact hx
      · exact e3 z hz2

/-- After removing the only matching entry of a queue with pairwise distinct
sequence numbers, a second scan for the same number finds nothing. -/
lemma removeAck_again (q : List UcpPacket) (a : Nat) (q1 : List UcpPacket)
    (hnd : (q.map UcpPacket.seq).Nodup) (h : removeAck q a = some q1) :
    removeAck q1 a = none := by
  obtain ⟨l, y, r, e1, e2, e3, e4⟩ := removeAck_some_decomp q a q1 h
  subst e4
  rw [removeAck_none_iff]
  intro x hx
  rcases List.mem_append.mp hx with hl | hr
  · exact e3 x hl
  · subst e1
    rw [List.map_append, List.map_cons] at hnd
    have hyr : y.seq ∉ r.map UcpPacket.seq :=
      (List.nodup_cons.mp (List.nodup_append.mp hnd).2.1).1
    intro hxa
    have hmem : x.seq ∈ r.map UcpPacket.seq :=
      List.mem_map_of_mem UcpPacket.seq hr
    rw [hxa, ← e2] at hmem
    exact hyr hmem

/-- A non-panicking `send_packet` keeps `remote_window` and either leaves
`send_queue` unchanged (the buffered branch) or, only when strictly below the
window, appends a single packet. -/
lemma send_packet_cases (s : UcpStreamImpl) (p : UcpPacket)
    (s1 : UcpStreamImpl) (h : s.send_packet p = some s1) :
    s1.remote_window = s.remote_window ∧
    (s1.send_queue = s.send_queue ∨
      (s.send_queue.length < s.remote_window ∧
        ∃ pk, s1.send_queue = s.send_queue ++ [pk])) := by
  unfold UcpStreamImpl.send_packet at h
  by_cases hlen : s.send_queue.length < s.remote_window
  · rw [if_pos hlen] at h
    cases hp : p.pack with
    | none => rw [hp] at h; cases h
    | some pk =>
      rw [hp] at h
      cases h
      exact ⟨rfl, Or.inr ⟨hlen, pk, rfl⟩⟩
  · rw [if_neg hlen] at h
    cases h
    exact ⟨rfl, Or.inl rfl⟩

/-- Any non-panicking sequence of sends keeps `send_queue` within the window
it started under. -/
lemma sendAll_window_bound (ps : List UcpPacket) :
    ∀ (s t : UcpStreamImpl) (w : Nat), s.remote_window = w →
    s.send_queue.length ≤ w → sendAll s ps = some t →
    t.send_queue.length ≤ w := by
  induction ps with
  | nil =>
    intro s t w hw hl h
    cases h
    exact hl
  | cons p ps ih =>
    intro s t w hw hl h
    rw [sendAll] at h
    cases hsp : s.send_packet p with
    | none => rw [hsp] at h; cases h
    | some s1 =>
      rw [hsp] at h
      obtain ⟨hrw, hq⟩ := send_packet_cases s p s1 hsp
      rcases hq with hq | ⟨hlt, pk, hq⟩
      · exact ih s1 t w (hrw.trans hw) (hq ▸ hl) h
      · refine ih s1 t w (hrw.trans hw) ?_ h
        rw [hq, List.length_append]
        simp only [List.length_singleton]
        omega

/-! Claim theorems. -/

/-- C1: the round trip `decode(encode(packet))` does not hold on the code.
For the very SYN packet `connecting` builds (a fresh packet, internal
`size = 0`), `pack` computes the checksum over the slice `buf[4..size]`
before updating `size`; with `size = 0` that Rust slice panics, so encoding
aborts and the round trip cannot succeed. -/
theorem C1_roundtrip_fails_on_fresh_packet :
    c1syn.pack = none ∧ (c1syn.pack).bind UcpPacket.parse = none := by
  constructor
  · decide
  · decide

/-- C2: `pack` does not compute the checksum over bytes 4..end of the final
`29 + N`-byte buffer.  On a packet with empty payload whose buffer previously
held 50 bytes, packing succeeds, sets the output length to 29, yet stores at
offset 0 a digest taken over the stale range `4..50`, which differs from the
CRC-32 of bytes 4..29 of the encoded buffer. -/
theorem C2_checksum_covers_stale_range :
    ∃ r, c2pkt.pack = some r ∧ r.size = 29 ∧
      readU32 r.buf 0 ≠ checksum_ieee (sliceBytes r.buf 4 r.size) := by
  refine ⟨(c2pkt.pack).getD c2pkt, by decide, by decide, by decide⟩

/-- C4 counterexample: `connect` does not surface setup failures as a
failure result — it panics on an address-parse failure (`unwrap`), and even
with every socket operation succeeding it panics in normal operation while
packing the initial SYN. -/
theorem C4_counterexample :
    UcpClient.connect true none true 1 0 = none ∧
    UcpClient.connect true (some 3) true 1 0 = none := by
  constructor
  · rfl
  · decide

/-- C4 (amended): `listen` surfaces a socket bind failure to its caller as a
failure result, but `connect` panics on a bind or address-parse failure
rather than returning one, and even with successful setup `connect` panics
while packing its initial SYN, so panics do occur in normal operation. -/
theorem C4_setup_error_handling (e : Nat) (pa : Option Nat) (cOk : Bool)
    (sid now a : Nat) :
    UcpServer.listen (Except.error e) = Except.error e ∧
    UcpServer.listen (Except.ok ()) = Except.ok ⟨[]⟩ ∧
    UcpClient.connect false pa cOk sid now = none ∧
    UcpClient.connect true none cOk sid now = none ∧
    UcpClient.connect true (some a) true sid now = none := by
  refine ⟨rfl, rfl, rfl, rfl, rfl⟩

/-- C5: the three-datagram handshake does not bring both sides to
ESTABLISHED.  When the final handshake ACK reaches the server connection
(state ACCEPTING, matching session), `process_state_accepting` is an empty
stub, so the server connection remains in ACCEPTING. -/
theorem C5_server_never_established :
    (c5srv.processing c5ack 5).map UcpStreamImpl.state
      = some UcpState.ACCEPTING := by
  decide

/-- C6 counterexample: in CONNECTING, a SYN_ACK with an 8-byte payload whose
echoed seq matches the queued SYN does not lead to ESTABLISHED with an echo
ACK sent — the operation panics (packing the fresh echo ACK aborts). -/
theorem C6_counterexample : c6conn.processing c6synack 100 = none := by
  decide

/-- C7 counterexample: with `send_queue` far below `remote_window`, sending a
freshly built packet is not "transmitted and appended to send_queue" — it
panics inside `pack` (fresh packets have internal size 0). -/
theorem C7_counterexample : c7conn.send_packet c7fresh = none := by
  decide

/-- C8: `process_ack` scans `send_queue` linearly; on a match it sets
`rto = (rto + rtt) / 2` with `rtt = now - timestamp` (wrapping u32
arithmetic), removes exactly the first matching entry and reports success; on
no match it reports failure leaving `send_queue` and `rto` unchanged, and —
as the queue carries pairwise distinct sequence numbers — replaying the same
acknowledgment is a no-op. -/
theorem C8_process_ack_spec (s : UcpStreamImpl) (aseq ts now now2 : Nat) :
    ((∀ x ∈ s.send_queue, x.seq ≠ aseq) →
      s.process_ack aseq ts now = (false, s)) ∧
    (∀ x, x ∈ s.send_queue → x.seq = aseq →
      (s.process_ack aseq ts now).1 = true ∧
      (s.process_ack aseq ts now).2.rto = ((s.rto + sub32 now ts) % U32M) / 2 ∧
      ∃ l y r, s.send_queue = l ++ y :: r ∧ y.seq = aseq ∧
        (∀ z ∈ l, z.seq ≠ aseq) ∧
        (s.process_ack aseq ts now).2.send_queue = l ++ r) ∧
    ((s.send_queue.map UcpPacket.seq).Nodup →
      (s.process_ack aseq ts now).2.process_ack aseq ts now2 =
        (false, (s.process_ack aseq ts now).2)) := by
  refine ⟨?_, ?_, ?_⟩
  · intro h
    unfold UcpStreamImpl.process_ack
    rw [(removeAck_none_iff _ _).mpr h]
  · intro x hx hseq
    cases hq : removeAck s.send_queue aseq with
    | none =>
      exact absurd hseq (((removeAck_none_iff _ _).mp hq) x hx)
    | some q1 =>
      obtain ⟨l, y, r, e1, e2, e3, e4⟩ := removeAck_some_decomp _ _ _ hq
      unfold UcpStreamImpl.process_ack
      rw [hq]
      exact ⟨rfl, rfl, l, y, r, e1, e2, e3, by simp [e4]⟩
  · intro hnd
    unfold UcpStreamImpl.process_ack
    cases hq : removeAck s.send_queue aseq with
    | none => simp [hq]
    | some q1 =>
      have h2 : removeAck q1 aseq = none := removeAck_again _ _ _ hnd hq
      simp [hq, h2]

/-- C8 witness: a queue holding the packet with seq 1 and rto 100; acking
seq 1 with echoed timestamp 2 at time 5 succeeds, sets rto to 51, and
replaying the same acknowledgment afterwards is a no-op failure. -/
theorem C8_witness :
    (s8.process_ack 1 2 5).1 = true ∧
    (s8.process_ack 1 2 5).2.rto = ((s8.rto + sub32 5 2) % U32M) / 2 ∧
    (s8.process_ack 1 2 5).2.process_ack 1 2 9 =
      (false, (s8.process_ack 1 2 5).2) := by
  have h := C8_process_ack_spec s8 1 2 5 9
  have hm := h.2.1 a8pkt (by decide) (by decide)
  exact ⟨hm.1, hm.2.1, h.2.2 (by decide)⟩

/-- Unfolded form of `parse` as one conditional over plain propositions. -/
lemma parse_eq (p : UcpPacket) :
    p.parse = if 29 < p.size ∧
        checksum_ieee (sliceBytes p.buf 4 p.size) = readU32 p.buf 0 ∧
        128 ≤ getByte p.buf 28 ∧ getByte p.buf 28 ≤ 133 then
      some { p with payload := p.size - 29, session_id := readU32 p.buf 4,
                    timestamp := readU32 p.buf 8, window := readU32 p.buf 12,
                    xmit := readU32 p.buf 16, una := readU32 p.buf 20,
                    seq := readU32 p.buf 24, cmd := getByte p.buf 28 }
    else none := by
  unfold UcpPacket.parse UcpPacket.is_legal UcpPacket.is_crc32_correct
  by_cases h1 : 29 < p.size <;>
    by_cases h2 : checksum_ieee (sliceBytes p.buf 4 p.size) = readU32 p.buf 0 <;>
    by_cases h3 : 128 ≤ getByte p.buf 28 ∧ getByte p.buf 28 ≤ 133 <;>
    simp [h1, h2, h3, UCP_PACKET_META_SIZE, CMD_SYN, CMD_HEARTBEAT_ACK]

/-- C3: `parse` rejects a buffer exactly when its length is at most 29, or
the stored checksum at offset 0 differs from the CRC-32 of bytes 4..end, or
the command byte at offset 28 lies outside `[128, 133]`; on acceptance the
payload length is the buffer length minus 29. -/
theorem C3_parse_characterization (p : UcpPacket) :
    (p.parse = none ↔
      (p.size ≤ 29 ∨ readU32 p.buf 0 ≠ checksum_ieee (sliceBytes p.buf 4 p.size) ∨
       getByte p.buf 28 < 128 ∨ 133 < getByte p.buf 28)) ∧
    (∀ q, p.parse = some q → q.payload = p.size - 29) := by
  constructor
  · rw [parse_eq]
    split_ifs with hc
    · constructor
      · intro h; exact absurd h (by simp)
      · intro h
        exfalso
        obtain ⟨hs, hcrc, hlo, hhi⟩ := hc
        rcases h with h | h | h | h
        · omega
        · exact h hcrc.symm
        · omega
        · omega
    · constructor
      · intro _
        by_contra hr
        push_neg at hr
        exact hc ⟨hr.1, hr.2.1.symm, hr.2.2.1, hr.2.2.2⟩
      · intro _; rfl
  · intro q hq
    rw [parse_eq] at hq
    split_ifs at hq with hc
    have hqe := Option.some.inj hq
    rw [← hqe]

/-- C3 witness: a concrete valid 30-byte ACK datagram is accepted by `parse`
and its decoded payload length is its size minus 29, namely 1. -/
theorem C3_witness : wpkt.parse = some wimg ∧ wimg.payload = wpkt.size - 29 :=
  ⟨by decide, (C3_parse_characterization wpkt).2 wimg (by decide)⟩

/-- C9: a packet whose source address differs from the remote address, or
(in any state other than NONE) whose session id differs from the assigned
one, is discarded leaving the connection state entirely unchanged; a SYN is
accepted only from state NONE — in any other state it at most refreshes the
advertised remote window. -/
theorem C9_packet_filtering (s : UcpStreamImpl) (p : UcpPacket) (addr now : Nat) :
    (addr ≠ s.remote_addr → s.process_packet p addr now = some s) ∧
    (s.state ≠ UcpState.NONE → p.session_id ≠ s.session_id →
      s.process_packet p addr now = some s) ∧
    (s.state ≠ UcpState.NONE → p.cmd = 128 →
      ∃ r, s.process_packet p addr now = some r ∧ r.state = s.state ∧
        r.session_id = s.session_id ∧ r.send_queue = s.send_queue ∧
        r.sent = s.sent) := by
  obtain ⟨ra, st, sq, rq, sb, al, sid, lw, rwin, sqn, un, rt, snt⟩ := s
  refine ⟨?_, ?_, ?_⟩
  · intro h
    simp [UcpStreamImpl.process_packet, Ne.symm h]
  · intro hst hsess
    by_cases ha : ra ≠ addr
    · simp [UcpStreamImpl.process_packet, ha]
    · cases st with
      | NONE => exact absurd rfl hst
      | ACCEPTING =>
        simp [UcpStreamImpl.process_packet, UcpStreamImpl.processing, ha,
          Ne.symm hsess]
      | CONNECTING =>
        simp [UcpStreamImpl.process_packet, UcpStreamImpl.processing, ha,
          Ne.symm hsess]
      | ESTABLISHED =>
        simp [UcpStreamImpl.process_packet, UcpStreamImpl.processing, ha,
          Ne.symm hsess]
  · intro hst hcmd
    by_cases ha : ra ≠ addr
    · refine ⟨_, ?_, rfl, rfl, rfl, rfl⟩
      simp [UcpStreamImpl.process_packet, ha]
    · by_cases hsess : sid ≠ p.session_id
      · cases st with
        | NONE => exact absurd rfl hst
        | ACCEPTING =>
          refine ⟨_, ?_, rfl, rfl, rfl, rfl⟩
          simp [UcpStreamImpl.process_packet, UcpStreamImpl.processing, ha, hsess]
        | CONNECTING =>
          refine ⟨_, ?_, rfl, rfl, rfl, rfl⟩
          simp [UcpStreamImpl.process_packet, UcpStreamImpl.processing, ha, hsess]
        | ESTABLISHED =>
          refine ⟨_, ?_, rfl, rfl, rfl, rfl⟩
          simp [UcpStreamImpl.process_packet, UcpStreamImpl.processing, ha, hsess]
      · cases st with
        | NONE => exact absurd rfl hst
        | ACCEPTING =>
          refine ⟨⟨ra, UcpState.ACCEPTING, sq, rq, sb, al, sid, lw, p.window,
            sqn, un, rt, snt⟩, ?_, rfl, rfl, rfl, rfl⟩
          simp [UcpStreamImpl.process_packet, UcpStreamImpl.processing,
            UcpStreamImpl.process_state_accepting, ha, hsess]
        | CONNECTING =>
          refine ⟨⟨ra, UcpState.CONNECTING, sq, rq, sb, al, sid, lw, p.window,
            sqn, un, rt, snt⟩, ?_, rfl, rfl, rfl, rfl⟩
          simp [UcpStreamImpl.process_packet, UcpStreamImpl.processing,
            UcpStreamImpl.process_state_connecting, ha, hsess, hcmd, CMD_SYN_ACK]
        | ESTABLISHED =>
          refine ⟨⟨ra, UcpState.ESTABLISHED, sq, rq, sb, al, sid, lw, p.window,
            sqn, un, rt, snt⟩, ?_, rfl, rfl, rfl, rfl⟩
          simp [UcpStreamImpl.process_packet, UcpStreamImpl.processing,
            UcpStreamImpl.process_state_established, ha, hsess]

/-- C9 witness: a CONNECTING connection with session 42 discards a packet
carrying session 9 and is left unchanged. -/
theorem C9_witness : s9.process_packet p9 7 0 = some s9 :=
  (C9_packet_filtering s9 p9 7 0).2.1 (by decide) (by decide)

/-- C6 (amended): in CONNECTING, a SYN_ACK with 8-byte payload whose echoed
seq matches a `send_queue` entry makes the connection retire that entry and
update the RTO, but it then panics while packing the echo ACK (a fresh
packet), so the ACK is never sent and ESTABLISHED is never reached; any
other packet received in CONNECTING leaves the state CONNECTING (only the
advertised remote window is refreshed). -/
theorem C6_connecting_behavior (s : UcpStreamImpl) (p : UcpPacket) (now : Nat)
    (hs : s.state = UcpState.CONNECTING) (hsess : s.session_id = p.session_id) :
    (¬(p.cmd = 129 ∧ p.payload = 8 ∧
        (removeAck s.send_queue (readU32 p.buf 29)).isSome = true) →
      s.processing p now = some { s with remote_window := p.window } ∧
      ({ s with remote_window := p.window } : UcpStreamImpl).state
        = UcpState.CONNECTING) ∧
    ((p.cmd = 129 ∧ p.payload = 8 ∧
        (removeAck s.send_queue (readU32 p.buf 29)).isSome = true) →
      s.processing p now = none) := by
  obtain ⟨ra, st, sq, rq, sb, al, sid, lw, rwin, sqn, un, rt, snt⟩ := s
  cases hs
  replace hsess : sid = p.session_id := hsess
  constructor
  · intro hneg
    refine ⟨?_, rfl⟩
    by_cases hcmd : p.cmd = 129 ∧ p.payload = 8
    · have hra : removeAck sq (readU32 p.buf 29) = none := by
        cases hq : removeAck sq (readU32 p.buf 29) with
        | none => rfl
        | some q1 => exact absurd ⟨hcmd.1, hcmd.2, by simp [hq]⟩ hneg
      simp [UcpStreamImpl.processing, UcpStreamImpl.process_state_connecting,
        UcpStreamImpl.process_ack, hsess, hcmd.1, hcmd.2, CMD_SYN_ACK, hra]
    · simp only [not_and_or] at hcmd
      rcases hcmd with hc | hc
      · simp [UcpStreamImpl.processing, UcpStreamImpl.process_state_connecting,
          hsess, CMD_SYN_ACK, hc]
      · simp [UcpStreamImpl.processing, UcpStreamImpl.process_state_connecting,
          hsess, CMD_SYN_ACK, hc]
  · intro hpos
    obtain ⟨hc1, hc2, hc3⟩ := hpos
    replace hc3 : (removeAck sq (readU32 p.buf 29)).isSome = true := hc3
    cases hq : removeAck sq (readU32 p.buf 29) with
    | none => rw [hq] at hc3; cases hc3
    | some q1 =>
      simp [UcpStreamImpl.processing, UcpStreamImpl.process_state_connecting,
        UcpStreamImpl.process_ack, hsess, hc1, hc2, CMD_SYN_ACK, hq,
        send_ack_panics]

/-- C6 witness: a DATA packet delivered in CONNECTING only refreshes the
remote window and the state remains CONNECTING. -/
theorem C6_witness :
    c6conn.processing c6data 5 = some { c6conn with remote_window := 300 } ∧
    ({ c6conn with remote_window := 300 } : UcpStreamImpl).state
      = UcpState.CONNECTING := by
  have h := (C6_connecting_behavior c6conn c6data 5 (by decide) (by decide)).1
    (by decide)
  exact h

/-- C7 (amended): when `send_queue` holds fewer than `remote_window` entries
`send_packet` packs and transmits the packet and appends the packed packet to
`send_queue` — provided packing does not panic, which it does for every
freshly built packet (internal size 0); at or above the window the packet is
appended to `send_buffer` and nothing is transmitted; and across any
non-panicking sequence of sends `send_queue` never exceeds the window it
started within. -/
theorem C7_window_gate (s : UcpStreamImpl) (p pk : UcpPacket) :
    (s.send_queue.length < s.remote_window → p.pack = some pk →
      s.send_packet p = some { s with send_queue := s.send_queue ++ [pk],
                                      sent := s.sent ++ [pk] }) ∧
    (s.send_queue.length < s.remote_window → p.pack = none →
      s.send_packet p = none) ∧
    (s.remote_window ≤ s.send_queue.length →
      s.send_packet p = some { s with send_buffer := s.send_buffer ++ [p] }) ∧
    (∀ ps t, s.send_queue.length ≤ s.remote_window → sendAll s ps = some t →
      t.send_queue.length ≤ s.remote_window) := by
  refine ⟨?_, ?_, ?_, ?_⟩
  · intro hlen hp
    unfold UcpStreamImpl.send_packet
    rw [if_pos hlen, hp]
  · intro hlen hp
    unfold UcpStreamImpl.send_packet
    rw [if_pos hlen, hp]
  · intro hge
    unfold UcpStreamImpl.send_packet
    rw [if_neg (by omega)]
  · intro ps t hlen h
    exact sendAll_window_bound ps s t s.remote_window rfl hlen h

/-- C7 witness: under the window, a packable packet is packed, transmitted
and appended to the send queue. -/
theorem C7_witness :
    (UcpStreamImpl.new 3).send_packet p30 =
      some { UcpStreamImpl.new 3 with send_queue := [pk30], sent := [pk30] } :=
  (C7_window_gate (UcpStreamImpl.new 3) p30 pk30).1 (by decide) (by decide)

/-- C10: when a valid SYN arrives from an unknown remote address, the
new-connection callback observes a connection still in state NONE with
session id 0 and a registry with no entry for that address; registry
insertion and SYN processing happen only afterwards, on the fresh
connection. -/
theorem C10_callback_before_registration (srv : UcpServer) (p0 p : UcpPacket)
    (addr now : Nat) (h1 : lookupAddr srv.ucp_map addr = none)
    (h2 : p0.parse = some p) (h3 : p.cmd = 128) :
    (srv.process_packet p0 addr now).1 = some ⟨UcpState.NONE, 0, false⟩ ∧
    (srv.process_packet p0 addr now).2 =
      ((UcpStreamImpl.new addr).process_packet p addr now).map
        (fun c2 => { srv with ucp_map := insertAddr srv.ucp_map addr c2 }) := by
  have hsyn : p.is_syn = true := by simp [UcpPacket.is_syn, h3, CMD_SYN]
  unfold UcpServer.process_packet
  rw [h2, h1]
  simp only [hsyn, if_true]
  unfold UcpServer.new_ucp_stream
  cases hpp : (UcpStreamImpl.new addr).process_packet p addr now with
  | some c2 =>
    simp only [hpp, h1, Option.isSome_none]
    exact ⟨rfl, rfl⟩
  | none =>
    simp only [hpp, h1, Option.isSome_none]
    exact ⟨rfl, rfl⟩

/-- C10 witness: a concrete valid SYN datagram from unknown address 3 fires
the callback with state NONE, session 0 and no registry entry. -/
theorem C10_witness :
    (srv10.process_packet spkt 3 0).1 = some ⟨UcpState.NONE, 0, false⟩ :=
  (C10_callback_before_registration srv10 spkt simg 3 0 (by decide) (by decide)
    (by decide)).1
